import Mathlib

/-!
Verification of the structure subsystem of pyscaffold (`pyscaffold/structure.py`
and `pyscaffold/extensions/external_generators.py`).

The embedding follows the source: the project structure is a finite mapping from
names to nodes (nested directory or file leaf), file contents are one of a
literal value, an options-driven callable, or a substitution template, and the
reifier `create_structure` walks the tree, creating directories and writing
files through pluggable write operations, returning the pruned tree of files
that actually changed.

External collaborators that the source imports but whose code is not part of
this fragment (`pyscaffold.operations`, `pyscaffold.file_system`,
`pyscaffold.templates`, and Python's `string.Template`) are modelled from the
spec; each such definition says so in its doc string.  Filesystem effects are
made explicit: a filesystem state is threaded through the walk, and every
invocation of the directory-creation collaborator is recorded in a trace so
that the arguments passed to it are observable.
-/

/-- Filesystem paths, as the list of path segments (`prefix / name` appends a
segment, mirroring `pathlib`). -/
abbrev FSPath := List String

/-- The PyScaffold options mapping (`opts`).  The run-mode flags and the keys
read by `structure.py` are explicit fields; `vars` holds the remaining
key-to-text bindings consumed by template substitution.  An absent boolean key
is `false` (Python `opts.get(...)` yields falsy `None`). -/
structure ScaffoldOpts where
  update : Bool
  force : Bool
  pretend : Bool
  project_path : Option String
  package : String
  vars : List (String × String)
deriving DecidableEq

/-- Resolved file contents (`FileContents`): a text value, a bytes value,
Python `None`, or a value of an unrecognized shape (tagged by a number), which
the resolver passes through unchanged. -/
inductive FileContents where
  | text : String → FileContents
  | bytes : List Nat → FileContents
  | none : FileContents
  | other : Nat → FileContents
deriving DecidableEq

/-- One piece of a `string.Template`: literal text or a `$\x7bkey\x7d`
placeholder. -/
inductive TemplatePart where
  | lit : String → TemplatePart
  | placeholder : String → TemplatePart
deriving DecidableEq

/-- Association-list lookup used for the options mapping. -/
def lookupVar (vars : List (String × String)) (k : String) : Option String :=
  match vars with
  | [] => Option.none
  | (k', v) :: rest => if k' = k then some v else lookupVar rest k

/-- Modelled from the spec: rendering of one part under Python
`string.Template.safe_substitute` — a known key is replaced by its value, an
absent key is left verbatim, and no error is ever raised. -/
def substPart (vars : List (String × String)) : TemplatePart → String
  | .lit s => s
  | .placeholder k =>
      match lookupVar vars k with
      | some v => v
      | Option.none => "$\x7b" ++ k ++ "\x7d"

/-- Modelled from the spec: Python `string.Template.safe_substitute` with the
options mapping (missing-key-tolerant substitution, total). -/
def safe_substitute (t : List TemplatePart) (opts : ScaffoldOpts) : String :=
  String.join (t.map (substPart opts.vars))

/-- `AbstractContent`: a literal value (string, bytes, `None`, or an
unrecognized shape), an options-driven callable, or a `string.Template`. -/
inductive AbstractContent where
  | lit : FileContents → AbstractContent
  | callable : (ScaffoldOpts → FileContents) → AbstractContent
  | template : List TemplatePart → AbstractContent

/-- Filesystem state: the set of existing directories and the files with their
contents.  This is the shared mutable resource the write operations act on. -/
structure FS where
  dirs : List FSPath
  files : List (FSPath × FileContents)
deriving DecidableEq

/-- A file operation (`FileOp`): one of the stock policies, or an arbitrary
callable taking the target path, the resolved contents and the options, acting
on the filesystem and reporting whether a change occurred. -/
inductive FileOp where
  | create
  | no_overwrite
  | skip_on_update
  | custom : (FSPath → FileContents → ScaffoldOpts → FS → Bool × FS) → FileOp

/-- A structure leaf as it appears in the tree: either a bare content value or
an explicit `(contents, file_op)` tuple. -/
inductive Leaf where
  | bare : AbstractContent → Leaf
  | pair : AbstractContent → FileOp → Leaf

/-- A node of the project structure: a nested directory (dictionary) or a file
leaf. -/
inductive SNode where
  | dir : List (String × SNode) → SNode
  | file : Leaf → SNode

/-- `Structure`: dictionary representation of the project structure, as an
association list in iteration order. -/
abbrev Structure := List (String × SNode)

/-- A node of the changed tree returned by `create_structure`: a (possibly
empty) directory, or a changed file with its resolved contents. -/
inductive CNode where
  | dir : List (String × CNode) → CNode
  | file : FileContents → CNode

/-- Keys of one tree level. -/
def keysOf {α : Type} (l : List (String × α)) : List String :=
  l.map Prod.fst

/-- Association-list lookup for one tree level. -/
def lookupKey {α : Type} (l : List (String × α)) (k : String) : Option α :=
  match l with
  | [] => Option.none
  | (k', v) :: rest => if k' = k then some v else lookupKey rest k

/-- `structure_leaf`: normalize a project structure leaf to a
`(AbstractContent, FileOp)` tuple — a tuple is returned unchanged, anything
else is paired with the default `create` operation. -/
def structure_leaf (contents : Leaf) : AbstractContent × FileOp :=
  match contents with
  | .pair c op => (c, op)
  | .bare c => (c, FileOp.create)

/-- `reify_content`: make the content concrete, via call or `safe_substitute`
with `opts` if necessary, returning any other value unchanged. -/
def reify_content (content : AbstractContent) (opts : ScaffoldOpts) : FileContents :=
  match content with
  | .callable f => f opts
  | .template t => FileContents.text (safe_substitute t opts)
  | .lit c => c

/-- Follows the spec's words (failure semantics of the Reifier/Resolver pair):
content resolution that raises a type error when the leaf value matches none of
the recognized Content Source shapes, and otherwise resolves exactly as
`reify_content` does.  Kept separate from the source embedding so the two can
be compared. -/
def reify_content_specModel (content : AbstractContent) (opts : ScaffoldOpts) :
    Except String FileContents :=
  match content with
  | .callable f => Except.ok (f opts)
  | .template t => Except.ok (FileContents.text (safe_substitute t opts))
  | .lit (FileContents.text s) => Except.ok (FileContents.text s)
  | .lit (FileContents.bytes b) => Except.ok (FileContents.bytes b)
  | .lit FileContents.none => Except.ok FileContents.none
  | .lit (FileContents.other _) => Except.error "TypeError"

/-- Default options used for concrete evaluations. -/
def defaultOpts : ScaffoldOpts :=
  { update := false, force := false, pretend := false,
    project_path := Option.none, package := "pkg", vars := [] }

/-- Empty filesystem. -/
def emptyFS : FS := { dirs := [], files := [] }

/-- Modelled from the spec: the directory-creation collaborator
`create_directory(path, update, pretend)` — idempotent (no error when the
directory exists) and respectful of `pretend` (no mutation). -/
def create_directory (path : FSPath) ( _update pretend : Bool) (fs : FS) : FS :=
  { fs with dirs := if pretend || fs.dirs.contains path then fs.dirs else path :: fs.dirs }

/-- Does a file exist at `path`? -/
def fileExists (path : FSPath) (fs : FS) : Bool :=
  fs.files.any (fun e => e.1 == path)

/-- Write `c` at `path`, replacing any previous file there. -/
def writeFile (path : FSPath) (c : FileContents) (fs : FS) : FS :=
  { fs with files := (path, c) :: fs.files.filter (fun e => !(e.1 == path)) }

/-- Modelled from the spec: the `create` policy — writes unconditionally
(overwriting), simulates without touching disk under `pretend`, and returns
`true` unless the content is `None` (in which case no file is created). -/
def runCreate (path : FSPath) (c : FileContents) (opts : ScaffoldOpts) (fs : FS) :
    Bool × FS :=
  match c with
  | FileContents.none => (false, fs)
  | _ => if opts.pretend then (true, fs) else (true, writeFile path c fs)

/-- Modelled from the spec: semantics of the write-operation policies —
`no_overwrite` skips silently when the target exists, `skip_on_update` skips
when the run is an update and the target exists, both otherwise behaving like
`create`; a custom operation is applied as given. -/
def runFileOp (op : FileOp) (path : FSPath) (c : FileContents) (opts : ScaffoldOpts)
    (fs : FS) : Bool × FS :=
  match op with
  | FileOp.create => runCreate path c opts fs
  | FileOp.no_overwrite =>
      if fileExists path fs then (false, fs) else runCreate path c opts fs
  | FileOp.skip_on_update =>
      if opts.update && fileExists path fs then (false, fs) else runCreate path c opts fs
  | FileOp.custom f => f path c opts fs

/-- `NO_OVERWRITE`, the module-level singleton of the `no_overwrite` policy. -/
def NO_OVERWRITE : FileOp := FileOp.no_overwrite

/-- `SKIP_ON_UPDATE`, the module-level singleton of the `skip_on_update`
policy. -/
def SKIP_ON_UPDATE : FileOp := FileOp.skip_on_update

/-- Modelled from the spec: `pyscaffold.templates.get_template` returns the
named template as a substitution-template object; the template bodies are out
of scope, so a body is represented by its template name. -/
def get_template (name : String) : AbstractContent :=
  AbstractContent.template [TemplatePart.lit name]

/-- Modelled from the spec: `pyscaffold.templates.init`, a content-producing
function called with the options; its body (the template text) is out of
scope. -/
def templates.init : AbstractContent :=
  AbstractContent.callable (fun _ => FileContents.text "init")

/-- Modelled from the spec: `pyscaffold.templates.license`, a content-producing
function called with the options; its body is out of scope. -/
def templates.license : AbstractContent :=
  AbstractContent.callable (fun _ => FileContents.text "license")

/-- Modelled from the spec: `pyscaffold.templates.setup_cfg`, a
content-producing function called with the options; its body is out of
scope. -/
def templates.setup_cfg : AbstractContent :=
  AbstractContent.callable (fun _ => FileContents.text "setup_cfg")

/-- `define_structure`: creates the project structure as a dictionary of
dictionaries, ignoring its first argument (the previous structure) and
returning the input options unchanged. -/
def define_structure {α : Type} (_x : α) (opts : ScaffoldOpts) :
    Structure × ScaffoldOpts :=
  ([ (".gitignore", SNode.file (Leaf.pair (get_template "gitignore") NO_OVERWRITE)),
     ("src", SNode.dir
       [ (opts.package, SNode.dir
           [ ("__init__.py", SNode.file (Leaf.bare templates.init)),
             ("skeleton.py",
               SNode.file (Leaf.pair (get_template "skeleton") SKIP_ON_UPDATE)) ]) ]),
     ("tests", SNode.dir
       [ ("conftest.py", SNode.file (Leaf.pair (get_template "conftest_py") NO_OVERWRITE)),
         ("test_skeleton.py",
           SNode.file (Leaf.pair (get_template "test_skeleton") SKIP_ON_UPDATE)) ]),
     ("docs", SNode.dir
       [ ("conf.py", SNode.file (Leaf.bare (get_template "sphinx_conf"))),
         ("authors.rst", SNode.file (Leaf.bare (get_template "sphinx_authors"))),
         ("index.rst", SNode.file (Leaf.pair (get_template "sphinx_index") NO_OVERWRITE)),
         ("license.rst", SNode.file (Leaf.bare (get_template "sphinx_license"))),
         ("changelog.rst", SNode.file (Leaf.bare (get_template "sphinx_changelog"))),
         ("Makefile", SNode.file (Leaf.bare (get_template "sphinx_makefile"))),
         ("_static", SNode.dir
           [ (".gitignore", SNode.file (Leaf.bare (get_template "gitignore_empty"))) ]) ]),
     ("README.rst", SNode.file (Leaf.pair (get_template "readme") NO_OVERWRITE)),
     ("AUTHORS.rst", SNode.file (Leaf.pair (get_template "authors") NO_OVERWRITE)),
     ("LICENSE.txt", SNode.file (Leaf.pair templates.license NO_OVERWRITE)),
     ("CHANGELOG.rst", SNode.file (Leaf.pair (get_template "changelog") NO_OVERWRITE)),
     ("setup.py", SNode.file (Leaf.bare (get_template "setup_py"))),
     ("setup.cfg", SNode.file (Leaf.pair templates.setup_cfg NO_OVERWRITE)),
     (".coveragerc", SNode.file (Leaf.pair (get_template "coveragerc") NO_OVERWRITE)) ],
   opts)

/-- One recorded invocation of `create_directory`: the path and the `update`
and `pretend` flags passed to it. -/
abbrev DirCall := FSPath × Bool × Bool

/-- The loop body of `create_structure` over the entries of one tree level:
for a nested dictionary, create the directory (with the combined
`update or force` flag and `pretend`) and recurse; for a leaf, normalize it,
reify its content, invoke its file operation at `prefix / name`, and record
the content under `name` exactly when the operation reports a change.  Besides
the changed tree the threaded filesystem state and the trace of
`create_directory` invocations (in call order) are returned. -/
def create_structure_aux (struct : Structure) (opts : ScaffoldOpts) (pfx : FSPath)
    (fs : FS) : List (String × CNode) × FS × List DirCall :=
  match struct with
  | [] => ([], fs, [])
  | (name, SNode.dir sub) :: rest =>
      let path := pfx ++ [name]
      let fs1 := create_directory path (opts.update || opts.force) opts.pretend fs
      let r1 := create_structure_aux sub opts path fs1
      let r2 := create_structure_aux rest opts pfx r1.2.1
      ((name, CNode.dir r1.1) :: r2.1, r2.2.1,
        (path, opts.update || opts.force, opts.pretend) :: (r1.2.2 ++ r2.2.2))
  | (name, SNode.file leaf) :: rest =>
      let path := pfx ++ [name]
      let p := structure_leaf leaf
      let content := reify_content p.1 opts
      let r0 := runFileOp p.2 path content opts fs
      let r2 := create_structure_aux rest opts pfx r0.2
      ((if r0.1 then (name, CNode.file content) :: r2.1 else r2.1), r2.2)

/-- `create_structure(struct, opts, prefix=None)`: manifests a directory
structure, returning the changed tree together with the input options; on the
outermost call, resolves the root from `opts` (`project_path`, default `"."`)
and creates it with the combined `update or force` flag.  The filesystem state
and the trace of `create_directory` invocations are returned alongside. -/
def create_structure (struct : Structure) (opts : ScaffoldOpts) (pfx : Option FSPath)
    (fs : FS) : (List (String × CNode) × ScaffoldOpts) × FS × List DirCall :=
  match pfx with
  | Option.none =>
      let root : FSPath := [opts.project_path.getD "."]
      let fs1 := create_directory root (opts.update || opts.force) opts.pretend fs
      let r := create_structure_aux struct opts root fs1
      ((r.1, opts), r.2.1, (root, opts.update || opts.force, opts.pretend) :: r.2.2)
  | some p =>
      let r := create_structure_aux struct opts p fs
      ((r.1, opts), r.2)

/-- The `Extension` placeholder for external generators
(`extensions/external_generators.py`); `activate` unconditionally raises
`RuntimeError("Implemented but never called!")`, modelled as an `Except`
error value. -/
inductive ExternalGenerators where
  | mk

/-- `ExternalGenerators.activate`: fail-fast placeholder raising on every
call. -/
def ExternalGenerators.activate {α : Type} (_self : ExternalGenerators) (_actions : α) :
    Except String α :=
  Except.error "Implemented but never called!"

/-- Path lookup in a structure tree: follow directory keys and return the node
at the final key. -/
def findNode : Structure → List String → Option SNode
  | _, [] => Option.none
  | struct, [k] => lookupKey struct k
  | struct, k :: rest =>
      match lookupKey struct k with
      | some (SNode.dir sub) => findNode sub rest
      | _ => Option.none

/-- The write operation governing the file at `path` (after leaf
normalization), when a file is there. -/
def leafOpAt (struct : Structure) (path : List String) : Option FileOp :=
  match findNode struct path with
  | some (SNode.file leaf) => some (structure_leaf leaf).2
  | _ => Option.none

/-- Claim C4: `structure_leaf` returns a leaf that is already a
`(content, operation)` pair unchanged and pairs any other leaf value with the
unconditional `create` operation. -/
theorem structure_leaf_normalizes :
    (∀ c : AbstractContent, structure_leaf (Leaf.bare c) = (c, FileOp.create)) ∧
    (∀ (c : AbstractContent) (op : FileOp), structure_leaf (Leaf.pair c op) = (c, op)) :=
  ⟨fun _ => rfl, fun _ _ => rfl⟩

/-- Claim C2: `reify_content` dispatches by precedence — a callable is invoked
with the options, a template is safe-substituted with the options (placeholders
with keys absent from the options are left verbatim, never an error), and
every other value (literal text, bytes, `None`, or anything else) is returned
unchanged. -/
theorem reify_content_dispatch :
    (∀ (f : ScaffoldOpts → FileContents) (opts : ScaffoldOpts),
        reify_content (AbstractContent.callable f) opts = f opts) ∧
    (∀ (t : List TemplatePart) (opts : ScaffoldOpts),
        reify_content (AbstractContent.template t) opts =
          FileContents.text (safe_substitute t opts)) ∧
    (∀ (k : String) (vars : List (String × String)),
        lookupVar vars k = Option.none →
          substPart vars (TemplatePart.placeholder k) = "$\x7b" ++ k ++ "\x7d") ∧
    (∀ (c : FileContents) (opts : ScaffoldOpts),
        reify_content (AbstractContent.lit c) opts = c) := by
  refine ⟨fun _ _ => rfl, fun _ _ => rfl, ?_, fun _ _ => rfl⟩
  intro k vars h
  simp [substPart, h]

/-- Witness for C2 at a concrete input: the key `"name"` is absent from the
empty options mapping and its placeholder is rendered verbatim. -/
theorem reify_content_dispatch_witness :
    lookupVar ([] : List (String × String)) "name" = Option.none ∧
    substPart [] (TemplatePart.placeholder "name") = "$\x7b" ++ "name" ++ "\x7d" :=
  ⟨rfl, reify_content_dispatch.2.2.1 "name" [] rfl⟩

/-- Counterexample to claim C5: on a leaf value of unrecognized shape, the
resolver from the source returns the value unchanged and raises no type error,
while the resolver following the spec's words reports a type error — the
validation does not happen in the reifier/resolver pair. -/
theorem reify_content_type_error_counterexample :
    reify_content (AbstractContent.lit (FileContents.other 0)) defaultOpts =
      FileContents.other 0 ∧
    reify_content_specModel (AbstractContent.lit (FileContents.other 0)) defaultOpts =
      Except.error "TypeError" :=
  ⟨rfl, rfl⟩

/-- Claim C5 as amended: a leaf value matching none of the recognized Content
Source shapes passes through `structure_leaf` and `reify_content` unchanged
and without any error — the reifier/resolver pair performs no shape
validation; the type error documented for `create_structure` arises in the
downstream write operation, outside this pair. -/
theorem reify_content_passthrough_no_validation :
    ∀ (n : Nat) (opts : ScaffoldOpts),
      reify_content (AbstractContent.lit (FileContents.other n)) opts =
        FileContents.other n ∧
      structure_leaf (Leaf.bare (AbstractContent.lit (FileContents.other n))) =
        (AbstractContent.lit (FileContents.other n), FileOp.create) :=
  fun _ _ => ⟨rfl, rfl⟩

/-- Claim C10: `define_structure` ignores its first argument entirely — any
two previous-structure values give the same structure — and returns the input
options unchanged. -/
theorem define_structure_ignores_previous :
    ∀ {α β : Type} (s1 : α) (s2 : β) (opts : ScaffoldOpts),
      (define_structure s1 opts).1 = (define_structure s2 opts).1 ∧
      (define_structure s1 opts).2 = opts :=
  fun _ _ _ => ⟨rfl, rfl⟩

/-- Claim C7: in the default structure, the hand-edited-once files are paired
with `no_overwrite`, the generated code stubs `skeleton.py` and
`test_skeleton.py` are paired with `skip_on_update`, and machine-owned
metadata such as `setup.py` uses the unconditional `create` policy. -/
theorem define_structure_policies :
    ∀ {α : Type} (x : α) (opts : ScaffoldOpts),
      leafOpAt (define_structure x opts).1 [".gitignore"] = some FileOp.no_overwrite ∧
      leafOpAt (define_structure x opts).1 ["README.rst"] = some FileOp.no_overwrite ∧
      leafOpAt (define_structure x opts).1 ["AUTHORS.rst"] = some FileOp.no_overwrite ∧
      leafOpAt (define_structure x opts).1 ["LICENSE.txt"] = some FileOp.no_overwrite ∧
      leafOpAt (define_structure x opts).1 ["CHANGELOG.rst"] = some FileOp.no_overwrite ∧
      leafOpAt (define_structure x opts).1 ["setup.cfg"] = some FileOp.no_overwrite ∧
      leafOpAt (define_structure x opts).1 [".coveragerc"] = some FileOp.no_overwrite ∧
      leafOpAt (define_structure x opts).1 ["src", opts.package, "skeleton.py"] =
        some FileOp.skip_on_update ∧
      leafOpAt (define_structure x opts).1 ["tests", "test_skeleton.py"] =
        some FileOp.skip_on_update ∧
      leafOpAt (define_structure x opts).1 ["setup.py"] = some FileOp.create := by
  intro α x opts
  refine ⟨rfl, rfl, rfl, rfl, rfl, rfl, rfl, ?_, rfl, rfl⟩
  simp [define_structure, leafOpAt, findNode, lookupKey, structure_leaf, SKIP_ON_UPDATE]

/-- Claim C8: `ExternalGenerators.activate` fails loudly and immediately — for
every argument it raises (returns the error), and never returns normally. -/
theorem externalGenerators_activate_always_raises :
    ∀ {α : Type} (self : ExternalGenerators) (actions : α),
      ExternalGenerators.activate self actions =
        Except.error "Implemented but never called!" ∧
      ∀ r : α, ExternalGenerators.activate self actions ≠ Except.ok r :=
  fun _ _ => ⟨rfl, fun _ h => Except.noConfusion h⟩

/-- Witness for C8 at a concrete input. -/
theorem externalGenerators_activate_always_raises_witness :
    ExternalGenerators.activate ExternalGenerators.mk (0 : Nat) =
      Except.error "Implemented but never called!" ∧
    ExternalGenerators.activate ExternalGenerators.mk (0 : Nat) ≠ Except.ok 0 :=
  ⟨(externalGenerators_activate_always_raises ExternalGenerators.mk 0).1,
   (externalGenerators_activate_always_raises ExternalGenerators.mk 0).2 0⟩

/-- The changed tree mirrors the structure tree level by level: entries appear
in the same order with the same keys, every directory of the input is kept (as
a recursively mirrored, possibly empty directory), and each file entry is
either kept with some contents or dropped — no key is ever introduced and no
nesting is flattened. -/
inductive ChangedMirrors : List (String × CNode) → Structure → Prop where
  | nil : ChangedMirrors [] []
  | dir : ∀ (n : String) (cs : List (String × CNode)) (ss : Structure)
      (crest : List (String × CNode)) (srest : Structure),
      ChangedMirrors cs ss → ChangedMirrors crest srest →
      ChangedMirrors ((n, CNode.dir cs) :: crest) ((n, SNode.dir ss) :: srest)
  | fileKept : ∀ (n : String) (c : FileContents) (leaf : Leaf)
      (crest : List (String × CNode)) (srest : Structure),
      ChangedMirrors crest srest →
      ChangedMirrors ((n, CNode.file c) :: crest) ((n, SNode.file leaf) :: srest)
  | fileDropped : ∀ (n : String) (leaf : Leaf)
      (crest : List (String × CNode)) (srest : Structure),
      ChangedMirrors crest srest →
      ChangedMirrors crest ((n, SNode.file leaf) :: srest)

/-- The tree built by the walk mirrors its input tree. -/
theorem changedMirrors_aux :
    ∀ (struct : Structure) (opts : ScaffoldOpts) (pfx : FSPath) (fs : FS),
      ChangedMirrors (create_structure_aux struct opts pfx fs).1 struct := by
  intro struct opts pfx fs
  induction struct, opts, pfx, fs using create_structure_aux.induct with
  | case1 opts pfx fs =>
      simp only [create_structure_aux]
      exact ChangedMirrors.nil
  | case2 opts pfx fs name sub rest path fs1 r1 ihsub1 ihsub ihrest =>
      simp only [create_structure_aux]
      exact ChangedMirrors.dir _ _ _ _ _ ihsub ihrest
  | case3 opts pfx fs name leaf rest path p content r0 ihrest =>
      simp only [create_structure_aux]
      split
      · exact ChangedMirrors.fileKept _ _ _ _ _ ihrest
      · exact ChangedMirrors.fileDropped _ _ _ _ ihrest

/-- A mirrored tree has no key its input tree lacks, level by level. -/
theorem changedMirrors_keys_subset :
    ∀ {c : List (String × CNode)} {s : Structure}, ChangedMirrors c s →
      ∀ k : String, k ∈ keysOf c → k ∈ keysOf s := by
  intro c s h
  induction h with
  | nil => intro k hk; simp [keysOf] at hk
  | dir n cs ss crest srest h1 h2 ih1 ih2 =>
      intro k hk
      simp only [keysOf, List.map_cons, List.mem_cons] at hk ⊢
      rcases hk with hk | hk
      · exact Or.inl hk
      · exact Or.inr (ih2 k hk)
  | fileKept n cc leaf crest srest h ih =>
      intro k hk
      simp only [keysOf, List.map_cons, List.mem_cons] at hk ⊢
      rcases hk with hk | hk
      · exact Or.inl hk
      · exact Or.inr (ih k hk)
  | fileDropped n leaf crest srest h ih =>
      intro k hk
      simp only [keysOf, List.map_cons, List.mem_cons]
      exact Or.inr (ih k hk)

/-- A mirrored tree keeps every directory of its input tree. -/
theorem changedMirrors_dir_mem :
    ∀ {c : List (String × CNode)} {s : Structure}, ChangedMirrors c s →
      ∀ (k : String) (sub : Structure), (k, SNode.dir sub) ∈ s →
        ∃ csub, (k, CNode.dir csub) ∈ c := by
  intro c s h
  induction h with
  | nil => intro k sub hk; simp at hk
  | dir n cs ss crest srest h1 h2 ih1 ih2 =>
      intro k sub hk
      rcases List.mem_cons.mp hk with hk | hk
      · have hkn : k = n := by
          have := congrArg Prod.fst hk
          simpa using this
        exact ⟨cs, by rw [hkn]; exact List.mem_cons_self _ _⟩
      · obtain ⟨csub, hc⟩ := ih2 k sub hk
        exact ⟨csub, List.mem_cons_of_mem _ hc⟩
  | fileKept n cc leaf crest srest h ih =>
      intro k sub hk
      rcases List.mem_cons.mp hk with hk | hk
      · simp at hk
      · obtain ⟨csub, hc⟩ := ih k sub hk
        exact ⟨csub, List.mem_cons_of_mem _ hc⟩
  | fileDropped n leaf crest srest h ih =>
      intro k sub hk
      rcases List.mem_cons.mp hk with hk | hk
      · simp at hk
      · exact ih k sub hk

/-- Processing a concatenation of levels processes the first part, then the
second from the resulting filesystem state, concatenating changed entries and
directory-creation calls. -/
theorem create_structure_aux_append :
    ∀ (l1 l2 : Structure) (opts : ScaffoldOpts) (pfx : FSPath) (fs : FS),
      create_structure_aux (l1 ++ l2) opts pfx fs =
        ((create_structure_aux l1 opts pfx fs).1 ++
           (create_structure_aux l2 opts pfx (create_structure_aux l1 opts pfx fs).2.1).1,
         (create_structure_aux l2 opts pfx (create_structure_aux l1 opts pfx fs).2.1).2.1,
         (create_structure_aux l1 opts pfx fs).2.2 ++
           (create_structure_aux l2 opts pfx (create_structure_aux l1 opts pfx fs).2.1).2.2) := by
  intro l1
  induction l1 with
  | nil =>
      intro l2 opts pfx fs
      simp [create_structure_aux]
  | cons hd tl ih =>
      intro l2 opts pfx fs
      obtain ⟨name, node⟩ := hd
      cases node with
      | dir sub =>
          simp only [List.cons_append, create_structure_aux, ih]
          simp [List.append_assoc]
      | file leaf =>
          simp only [List.cons_append, create_structure_aux, ih]
          split <;> simp

/-- Lookup skips a block whose keys all differ from the key sought. -/
theorem lookupKey_append_right {α : Type} (l1 l2 : List (String × α)) (k : String)
    (h : k ∉ keysOf l1) : lookupKey (l1 ++ l2) k = lookupKey l2 k := by
  induction l1 with
  | nil => rfl
  | cons hd tl ih =>
      obtain ⟨k', v⟩ := hd
      simp only [keysOf, List.map_cons, List.mem_cons, not_or] at h
      simp only [List.cons_append, lookupKey]
      rw [if_neg (fun he => h.1 he.symm)]
      exact ih h.2

/-- Lookup misses when the key is absent. -/
theorem lookupKey_eq_none {α : Type} (l : List (String × α)) (k : String)
    (h : k ∉ keysOf l) : lookupKey l k = Option.none := by
  induction l with
  | nil => rfl
  | cons hd tl ih =>
      obtain ⟨k', v⟩ := hd
      simp only [keysOf, List.map_cons, List.mem_cons, not_or] at h
      simp only [lookupKey]
      rw [if_neg (fun he => h.1 he.symm)]
      exact ih h.2

/-- Claim C3: the changed tree of `create_structure` mirrors the input tree —
no key absent from the input at the same level, no change of nesting, and
every directory key of the input present (possibly as an empty mapping). -/
theorem create_structure_shape_preservation :
    ∀ (struct : Structure) (opts : ScaffoldOpts) (pfx : Option FSPath) (fs : FS),
      ChangedMirrors (create_structure struct opts pfx fs).1.1 struct ∧
      ∀ (k : String) (sub : Structure), (k, SNode.dir sub) ∈ struct →
        ∃ csub, (k, CNode.dir csub) ∈ (create_structure struct opts pfx fs).1.1 := by
  intro struct opts pfx fs
  cases pfx with
  | none =>
      exact ⟨changedMirrors_aux _ _ _ _,
        fun k sub hm => changedMirrors_dir_mem (changedMirrors_aux _ _ _ _) k sub hm⟩
  | some p =>
      exact ⟨changedMirrors_aux _ _ _ _,
        fun k sub hm => changedMirrors_dir_mem (changedMirrors_aux _ _ _ _) k sub hm⟩

/-- Witness for C3 at a concrete input: a directory with no changed descendant
is still present in the changed tree. -/
theorem create_structure_shape_preservation_witness :
    (("docs", SNode.dir []) ∈ ([("docs", SNode.dir [])] : Structure)) ∧
    ∃ csub, ("docs", CNode.dir csub) ∈
      (create_structure [("docs", SNode.dir [])] defaultOpts Option.none emptyFS).1.1 :=
  ⟨List.mem_singleton.mpr rfl,
   (create_structure_shape_preservation [("docs", SNode.dir [])] defaultOpts Option.none
       emptyFS).2 "docs" [] (List.mem_singleton.mpr rfl)⟩

/-- Claim C6: on the outermost call, the flag passed to the directory-creation
collaborator for the project root is the disjunction of `update` and `force`,
so options with `force` set are treated exactly as options with `update` set
for the root-directory-exists check. -/
theorem create_structure_root_dir_flag :
    ∀ (struct : Structure) (opts : ScaffoldOpts) (fs : FS),
      ((create_structure struct opts Option.none fs).2.2).head? =
        some ([opts.project_path.getD "."], opts.update || opts.force, opts.pretend) :=
  fun _ _ _ => rfl

/-- Every directory-creation call recorded by the walk carries the combined
`update or force` flag. -/
theorem aux_dirCalls_flag :
    ∀ (struct : Structure) (opts : ScaffoldOpts) (pfx : FSPath) (fs : FS)
      (path : FSPath) (u p : Bool),
      (path, u, p) ∈ (create_structure_aux struct opts pfx fs).2.2 →
      u = (opts.update || opts.force) := by
  intro struct opts pfx fs
  induction struct, opts, pfx, fs using create_structure_aux.induct with
  | case1 opts pfx fs =>
      intro path u p h
      simp [create_structure_aux] at h
  | case2 opts pfx fs name sub rest pth fs1 r1 ihsub1 ihsub ihrest =>
      intro path u p h
      simp only [create_structure_aux, List.mem_cons, List.mem_append] at h
      rcases h with h | h | h
      · simp at h
        exact h.2.1
      · exact ihsub _ _ _ h
      · exact ihrest _ _ _ h
  | case3 opts pfx fs name leaf rest pth p0 content r0 ihrest =>
      intro path u p h
      simp only [create_structure_aux] at h
      exact ihrest _ _ _ h

/-- Claim C9: `create_structure` passes the same combined `update or force`
flag to every invocation of the directory-creation collaborator — the project
root and every nested directory alike. -/
theorem create_structure_dir_flag_everywhere :
    ∀ (struct : Structure) (opts : ScaffoldOpts) (pfx : Option FSPath) (fs : FS)
      (path : FSPath) (u p : Bool),
      (path, u, p) ∈ (create_structure struct opts pfx fs).2.2 →
      u = (opts.update || opts.force) := by
  intro struct opts pfx fs path u p h
  cases pfx with
  | none =>
      simp only [create_structure, List.mem_cons] at h
      rcases h with h | h
      · simp at h
        exact h.2.1
      · exact aux_dirCalls_flag _ _ _ _ _ _ _ h
  | some q =>
      simp only [create_structure] at h
      exact aux_dirCalls_flag _ _ _ _ _ _ _ h

/-- Witness for C9 at a concrete input: the call for the nested directory
`sub` carries the combined flag. -/
theorem create_structure_dir_flag_everywhere_witness :
    (([".", "sub"], false, false) ∈
        (create_structure [("sub", SNode.dir [])] defaultOpts Option.none emptyFS).2.2) ∧
    false = (defaultOpts.update || defaultOpts.force) :=
  ⟨by simp [create_structure, create_structure_aux, create_directory, defaultOpts, emptyFS],
   create_structure_dir_flag_everywhere [("sub", SNode.dir [])] defaultOpts Option.none
     emptyFS [".", "sub"] false false
     (by simp [create_structure, create_structure_aux, create_directory, defaultOpts,
       emptyFS])⟩

/-- Claim C1: for a leaf `(name, node)` of the walked level, the node is
normalized by `structure_leaf`, its content resolved by `reify_content` with
the options, and its write operation invoked at `prefix / name` on the state
reached after the preceding entries; the changed level maps `name` to the
resolved content exactly when the operation returns `true`, and `name` is
absent from the changed level exactly when it returns `false`. -/
theorem create_structure_leaf_change_iff :
    ∀ (before after : Structure) (name : String) (leaf : Leaf)
      (opts : ScaffoldOpts) (pfx : FSPath) (fs : FS),
      name ∉ keysOf before → name ∉ keysOf after →
      ((lookupKey (create_structure_aux (before ++ (name, SNode.file leaf) :: after)
            opts pfx fs).1 name =
          some (CNode.file (reify_content (structure_leaf leaf).1 opts)) ↔
        (runFileOp (structure_leaf leaf).2 (pfx ++ [name])
            (reify_content (structure_leaf leaf).1 opts) opts
            (create_structure_aux before opts pfx fs).2.1).1 = true) ∧
       (lookupKey (create_structure_aux (before ++ (name, SNode.file leaf) :: after)
            opts pfx fs).1 name =
          Option.none ↔
        (runFileOp (structure_leaf leaf).2 (pfx ++ [name])
            (reify_content (structure_leaf leaf).1 opts) opts
            (create_structure_aux before opts pfx fs).2.1).1 = false)) := by
  intro before after name leaf opts pfx fs hb ha
  have hkb : name ∉ keysOf (create_structure_aux before opts pfx fs).1 :=
    fun hm => hb (changedMirrors_keys_subset (changedMirrors_aux before opts pfx fs) name hm)
  have hka : ∀ fsx : FS, name ∉ keysOf (create_structure_aux after opts pfx fsx).1 :=
    fun fsx hm =>
      ha (changedMirrors_keys_subset (changedMirrors_aux after opts pfx fsx) name hm)
  rw [create_structure_aux_append]
  dsimp only
  rw [lookupKey_append_right _ _ _ hkb]
  simp only [create_structure_aux]
  cases hop : (runFileOp (structure_leaf leaf).2 (pfx ++ [name])
      (reify_content (structure_leaf leaf).1 opts) opts
      (create_structure_aux before opts pfx fs).2.1).1 with
  | false =>
      have h2 : lookupKey (create_structure_aux after opts pfx
          ((runFileOp (structure_leaf leaf).2 (pfx ++ [name])
             (reify_content (structure_leaf leaf).1 opts) opts
             (create_structure_aux before opts pfx fs).2.1).2)).1 name = Option.none :=
        lookupKey_eq_none _ _ (hka _)
      simp [hop, h2]
  | true =>
      simp [hop, lookupKey]

/-- Witness for C1 at a concrete input: a single text leaf written by `create`
is recorded in the changed tree with its resolved content. -/
theorem create_structure_leaf_change_iff_witness :
    ("a.txt" ∉ keysOf ([] : Structure)) ∧
    lookupKey (create_structure_aux
        [("a.txt", SNode.file (Leaf.pair (AbstractContent.lit (FileContents.text "hello"))
            FileOp.create))] defaultOpts ["."] emptyFS).1 "a.txt" =
      some (CNode.file (FileContents.text "hello")) :=
  ⟨by simp [keysOf],
   (create_structure_leaf_change_iff [] [] "a.txt"
      (Leaf.pair (AbstractContent.lit (FileContents.text "hello")) FileOp.create)
      defaultOpts ["."] emptyFS (by simp [keysOf]) (by simp [keysOf])).1.mpr
     (by simp [create_structure_aux, runFileOp, runCreate, structure_leaf, reify_content,
       defaultOpts])⟩
